import Mathlib

/-!
Shallow embedding of `recognition/47364417/train.py` (function `train_model`).

The script runs a fixed epoch loop (`num_epochs = 13`).  Each epoch performs a
train pass, a validation pass and a test pass; each pass accumulates
`running_loss += loss.item() * batch_size`, `running_corrects`, and
`total_samples` over the batches yielded by the corresponding dataloader, then
reduces them to an epoch loss and an accuracy percentage.  The test pass also
collects every prediction and true label.  If the test accuracy reaches 80.0
the loop breaks immediately; otherwise, every 5th epoch a checkpoint record
(epoch index, model parameters, optimizer state, train loss) is written.  After
the loop the final model parameters are saved, and the plotting section then
reads the names `val_losses` / `val_accs`, which are never assigned anywhere in
the script, so a `NameError` is raised before any `plt.savefig` call runs.

Batches are abstracted by their observable effect on the accumulators: a batch
contributes a scalar loss (`loss.item()`), a batch size (`inputs.size(0)`) and
a number of correct predictions (`torch.sum(preds == labels.data)`); a test
batch additionally contributes its prediction and label lists.  Model and
optimizer parameters are opaque tokens supplied per epoch (the value they hold
after that epoch's train pass).  Scalars are rationals.  Python exceptions
(`ZeroDivisionError`, `AttributeError`, the `NameError` in the plot section)
are explicit `RunError` results; the file writes performed before an exception
are kept in the state, mirroring the files present on disk at termination.
A zero-sample train or validation pass raises `ZeroDivisionError` (lines 66,
90); a test pass with no batches instead raises `AttributeError` at line 114,
because `test_running_corrects` is still the int `0` and `.double()` runs
before the division.
-/

/-- One batch of a train/validation pass, abstracted by its effect on the
accumulators of the loop: `loss` is `loss.item()`, `size` is
`inputs.size(0)`, `correct` is `torch.sum(preds == labels.data)`. -/
structure Batch where
  loss : ℚ
  size : Nat
  correct : Nat
deriving DecidableEq

/-- One batch of the test pass: same accumulator effect, plus the
prediction and label lists the loop `extend`s into `all_preds`/`all_labels`. -/
structure TestBatch where
  loss : ℚ
  size : Nat
  correct : Nat
  preds : List Nat
  labels : List Nat
deriving DecidableEq

/-- Forget the collected predictions/labels of a test batch. -/
def TestBatch.toBatch (b : TestBatch) : Batch :=
  { loss := b.loss, size := b.size, correct := b.correct }

/-- Accumulators of the test pass: `test_running_loss`, `test_running_corrects`,
`test_total_samples`, `all_preds`, `all_labels`. -/
structure TestAgg where
  lossSum : ℚ
  corrects : Nat
  total : Nat
  preds : List Nat
  labels : List Nat
deriving DecidableEq

/-- The body of the accumulation loop shared by the train and validation
passes (`train.py` lines 61-63 and 86-88). -/
def passStep (a : ℚ × Nat × Nat) (b : Batch) : ℚ × Nat × Nat :=
  (a.1 + b.loss * (b.size : ℚ), a.2.1 + b.correct, a.2.2 + b.size)

/-- Run the accumulation loop of a train/validation pass over its batches,
starting from `running_loss, running_corrects, total_samples = 0.0, 0, 0`. -/
def foldPass (bs : List Batch) : ℚ × Nat × Nat :=
  bs.foldl passStep (0, 0, 0)

/-- The body of the test-pass loop (`train.py` lines 106-111): accumulate the
three counters and extend `all_preds` / `all_labels`. -/
def testStep (a : TestAgg) (b : TestBatch) : TestAgg :=
  { lossSum := a.lossSum + b.loss * (b.size : ℚ)
    corrects := a.corrects + b.correct
    total := a.total + b.size
    preds := a.preds ++ b.preds
    labels := a.labels ++ b.labels }

/-- Run the test-pass loop over its batches from zeroed accumulators and
freshly reset `all_preds, all_labels = [], []` (`train.py` lines 94-95). -/
def foldTestPass (bs : List TestBatch) : TestAgg :=
  bs.foldl testStep ⟨0, 0, 0, [], []⟩

/-- Accuracy percentage `corrects / total_samples * 100`. -/
def accPct (corrects total : Nat) : ℚ :=
  (corrects : ℚ) / (total : ℚ) * 100

/-- Reduce a pass's accumulators to `(epoch_loss, epoch_acc)`.  In Python the
divisions `running_loss / total_samples` and `running_corrects / total_samples`
raise `ZeroDivisionError` when `total_samples = 0`; `none` encodes that. -/
def reduceLossAcc (agg : ℚ × Nat × Nat) : Option (ℚ × ℚ) :=
  if agg.2.2 = 0 then none
  else some (agg.1 / (agg.2.2 : ℚ), accPct agg.2.1 agg.2.2)

/-- Which pass of an epoch a `ZeroDivisionError` occurred in. -/
inductive PassKind where
  | train
  | validation
  | test
deriving DecidableEq

/-- An uncaught Python exception terminating the run: a `ZeroDivisionError`
in the metric reduction of a pass, an `AttributeError` (the test-pass
reduction at line 114 calls `.double()` on `test_running_corrects`, which is
still the plain int `0` when the test loop ran zero iterations), or the
`NameError` raised by the plotting section when it reads an undefined name. -/
inductive RunError where
  | zeroDivision (epoch : Nat) (pass : PassKind)
  | attributeError (epoch : Nat) (attr : String)
  | nameError (name : String)
deriving DecidableEq

/-- Whether an exception is a `ZeroDivisionError`. -/
def RunError.isZeroDiv : RunError → Bool
  | .zeroDivision _ _ => true
  | _ => false

/-- A file written by the run.  Each constructor carries exactly the payload
`torch.save` / `plt.savefig` receives at that site. -/
inductive FileWrite where
  | checkpoint (epoch : Nat) (modelState : Nat) (optimState : Nat) (loss : ℚ)
  | finalModel (modelState : Nat)
  | lossPlot
  | accPlot
  | confusionPlot
deriving DecidableEq

/-- The path each write goes to. -/
def FileWrite.path : FileWrite → String
  | .checkpoint e _ _ _ => "checkpoints/checkpoint_epoch_" ++ toString e ++ ".pth"
  | .finalModel _ => "checkpoints/final_model.pth"
  | .lossPlot => "output/loss_vs_epochs.png"
  | .accPlot => "output/accuracy_vs_epochs.png"
  | .confusionPlot => "output/confusion_matrix.png"

/-- Whether a write is one of the periodic checkpoint files. -/
def FileWrite.isCheckpoint : FileWrite → Bool
  | .checkpoint _ _ _ _ => true
  | _ => false

/-- Whether a write is one of the three plot image files. -/
def FileWrite.isPlot : FileWrite → Bool
  | .lossPlot => true
  | .accPlot => true
  | .confusionPlot => true
  | _ => false

/-- The `StepLR` schedule object built at setup:
`optim.lr_scheduler.StepLR(optimizer, step_size=10, gamma=0.1)`.
`last_epoch` counts how many times `scheduler.step()` has run. -/
structure Sched where
  step_size : Nat
  gamma : ℚ
  last_epoch : Nat
deriving DecidableEq

/-- The observable data of one epoch: the batches yielded by the three
dataloaders and the opaque model/optimizer parameters as they stand after this
epoch's train pass (the only pass that mutates them). -/
structure EpochData where
  train : List Batch
  val : List Batch
  test : List TestBatch
  modelAfter : Nat
  optimAfter : Nat
deriving DecidableEq

/-- The mutable state of the run: model/optimizer parameters, the optimizer's
learning rate and the schedule object, the train history lists
`train_losses` / `train_accs` (the only history lists the script creates),
the test-pass collections `all_preds` / `all_labels`, the files written so
far, and the ghost trace of executed epochs with the learning rate each ran
under. -/
structure RunState where
  modelState : Nat
  optimState : Nat
  lr : ℚ
  sched : Sched
  lrTrace : List ℚ
  train_losses : List ℚ
  train_accs : List ℚ
  all_preds : List Nat
  all_labels : List Nat
  writes : List FileWrite
  executed : List Nat
deriving DecidableEq

/-- Outcome of one epoch body: an uncaught exception, a `break` out of the
loop (early stop), or normal fall-through to the next epoch. -/
inductive EpochOutcome where
  | err (s : RunState) (er : RunError)
  | brk (s : RunState)
  | cont (s : RunState)
deriving DecidableEq

/-- The state an epoch outcome carries. -/
def EpochOutcome.state : EpochOutcome → RunState
  | .err s _ => s
  | .brk s => s
  | .cont s => s

/-- Did the epoch `break` out of the loop? -/
def EpochOutcome.isBrk : EpochOutcome → Bool
  | .brk _ => true
  | _ => false

/-- Did the epoch fall through normally? -/
def EpochOutcome.isCont : EpochOutcome → Bool
  | .cont _ => true
  | _ => false

/-- The exception of the outcome, if any. -/
def EpochOutcome.errOf : EpochOutcome → Option RunError
  | .err _ er => some er
  | _ => none

/-- Entry bookkeeping of an epoch: record the epoch as executed at the current
learning rate, and let the train-pass batch loop move the model and optimizer
parameters to their post-pass values. -/
def startEpoch (e : Nat) (d : EpochData) (s : RunState) : RunState :=
  { s with
    executed := s.executed ++ [e]
    lrTrace := s.lrTrace ++ [s.lr]
    modelState := d.modelAfter
    optimState := d.optimAfter }

/-- `train_losses.append(epoch_loss); train_accs.append(epoch_acc.item())`
(`train.py` lines 68-69). -/
def recordTrain (tl ta : ℚ) (s : RunState) : RunState :=
  { s with
    train_losses := s.train_losses ++ [tl]
    train_accs := s.train_accs ++ [ta] }

/-- The validation pass (`train.py` lines 73-92): run the batch loop under
`torch.no_grad()` and compute `val_epoch_loss` / `val_epoch_acc`.  Nothing is
stored: the state is returned unchanged alongside the computed metrics. -/
def valPass (d : EpochData) (s : RunState) : RunState × Option (ℚ × ℚ) :=
  (s, reduceLossAcc (foldPass d.val))

/-- After the test batch loop, `all_preds` / `all_labels` hold exactly this
epoch's collected test predictions and labels (they were reset to `[]` at the
start of the pass). -/
def setTestCollect (d : EpochData) (s : RunState) : RunState :=
  { s with
    all_preds := (foldTestPass d.test).preds
    all_labels := (foldTestPass d.test).labels }

/-- `torch.save({'epoch': epoch, 'model_state_dict': ..., 'optimizer_state_dict':
..., 'loss': epoch_loss}, checkpoint_path)` (`train.py` lines 119-126). -/
def addCheckpoint (e : Nat) (tl : ℚ) (s : RunState) : RunState :=
  { s with writes := s.writes ++ [FileWrite.checkpoint e s.modelState s.optimState tl] }

/-- One iteration of the epoch loop (`train.py` lines 44-127): train pass and
reduction, metric recording, validation pass and reduction, test pass and
reduction, early-stop check, periodic checkpoint.

The test-pass reduction at line 114 reads
`test_running_corrects.double() / test_total_samples * 100`.  When the test
loop ran zero iterations, `test_running_corrects` is still the plain int `0`
from line 94, so `.double()` raises `AttributeError` before any division —
unlike the train/validation reductions (lines 66, 90), whose Python scalar
division by a zero `total_samples` raises `ZeroDivisionError` first.  When
test batches exist but total zero samples, `test_running_corrects` is a
tensor and the tensor division yields `nan` without raising; `nan >= 80.0`
is false, mirrored here by rational division by zero being `0`. -/
def processEpoch (e : Nat) (d : EpochData) (s : RunState) : EpochOutcome :=
  let s1 := startEpoch e d s
  match reduceLossAcc (foldPass d.train) with
  | none => .err s1 (.zeroDivision e .train)
  | some (tl, ta) =>
    let s2 := recordTrain tl ta s1
    let v := valPass d s2
    match v.2 with
    | none => .err v.1 (.zeroDivision e .validation)
    | some _ =>
      let agg := foldTestPass d.test
      let s3 := setTestCollect d v.1
      if d.test = [] then .err s3 (.attributeError e "double")
      else if 80 ≤ accPct agg.corrects agg.total then .brk s3
      else if e % 5 = 0 then .cont (addCheckpoint e tl s3)
      else .cont s3

/-- The epoch loop: run `processEpoch` over the remaining epochs, stopping at
an uncaught exception or at the early-stop `break`. -/
def runLoop : List (Nat × EpochData) → RunState → RunState × Option RunError
  | [], s => (s, none)
  | p :: rest, s =>
    match processEpoch p.1 p.2 s with
    | .err s1 er => (s1, some er)
    | .brk s1 => (s1, none)
    | .cont s1 => runLoop rest s1

/-- `num_epochs = 13` (`train.py` line 41). -/
def num_epochs : Nat := 13

/-- The epochs of the run: `for epoch in range(1, num_epochs + 1)`, paired
with the data observed at each epoch. -/
def epochList (data : Nat → EpochData) : List (Nat × EpochData) :=
  (List.range num_epochs).map fun i => (i + 1, data (i + 1))

/-- The schedule object as constructed: `StepLR(optimizer, step_size=10,
gamma=0.1)`, never yet stepped. -/
def initSched : Sched :=
  { step_size := 10, gamma := 1 / 10, last_epoch := 0 }

/-- State after setup: learning rate `lr=0.0001`, fresh schedule object, empty
history lists, nothing written yet.  `m0`/`o0` are the freshly initialized
model and optimizer parameters. -/
def initState (m0 o0 : Nat) : RunState :=
  { modelState := m0
    optimState := o0
    lr := 1 / 10000
    sched := initSched
    lrTrace := []
    train_losses := []
    train_accs := []
    all_preds := []
    all_labels := []
    writes := []
    executed := [] }

/-- Finalization (`train.py` lines 129-158): save the final model parameters
unconditionally, then start the loss plot.  Its second `plt.plot` call reads
`val_losses` (line 135), a name no statement of the script ever assigns, so a
`NameError` is raised before any `plt.savefig` runs. -/
def finalize (s : RunState) : RunState × Option RunError :=
  let s1 := { s with writes := s.writes ++ [FileWrite.finalModel s.modelState] }
  (s1, some (.nameError "val_losses"))

/-- The whole of `train_model` after setup: run the epoch loop over the fixed
epoch range, then finalize (an exception escaping the loop propagates and
skips finalization). -/
def train_model (m0 o0 : Nat) (data : Nat → EpochData) : RunState × Option RunError :=
  let r := runLoop (epochList data) (initState m0 o0)
  match r.2 with
  | some er => (r.1, some er)
  | none => finalize r.1

/-- The train epoch loss `running_loss / total_samples` of an epoch's data. -/
def trainLoss (d : EpochData) : ℚ :=
  (foldPass d.train).1 / ((foldPass d.train).2.2 : ℚ)

/-- The train epoch accuracy percentage of an epoch's data. -/
def trainAcc (d : EpochData) : ℚ :=
  accPct (foldPass d.train).2.1 (foldPass d.train).2.2

/-- The test accuracy percentage `test_epoch_acc` of an epoch's data. -/
def testAccOf (d : EpochData) : ℚ :=
  accPct (foldTestPass d.test).corrects (foldTestPass d.test).total

/-- All predictions collected over an epoch's test batches, in order. -/
def testPreds (d : EpochData) : List Nat :=
  (d.test.map TestBatch.preds).flatten

/-- All true labels collected over an epoch's test batches, in order. -/
def testLabels (d : EpochData) : List Nat :=
  (d.test.map TestBatch.labels).flatten

/-! Concrete epoch data used to exercise the definitions. -/

/-- A batch of 2 samples, 1 correct, batch loss 1. -/
def bHalf : Batch := { loss := 1, size := 2, correct := 1 }

/-- A test batch where both predictions are correct (accuracy 100%). -/
def tbHigh : TestBatch :=
  { loss := 1, size := 2, correct := 2, preds := [0, 1], labels := [0, 1] }

/-- A test batch where one of two predictions is correct (accuracy 50%). -/
def tbLow : TestBatch :=
  { loss := 1, size := 2, correct := 1, preds := [0, 1], labels := [0, 0] }

/-- Epoch data whose test accuracy (100%) triggers the early stop. -/
def dHigh : EpochData :=
  { train := [bHalf], val := [bHalf], test := [tbHigh], modelAfter := 1, optimAfter := 1 }

/-- Epoch data whose test accuracy (50%) does not trigger the early stop. -/
def dLow : EpochData :=
  { train := [bHalf], val := [bHalf], test := [tbLow], modelAfter := 1, optimAfter := 1 }

/-- Epoch data whose every dataloader yields no batches. -/
def dEmpty : EpochData :=
  { train := [], val := [], test := [], modelAfter := 1, optimAfter := 1 }

/-- Epoch data with normal train/validation batches but an empty test
dataloader. -/
def dTestEmpty : EpochData :=
  { train := [bHalf], val := [bHalf], test := [], modelAfter := 1, optimAfter := 1 }

/-! Closed forms of the accumulation loops. -/

lemma foldl_passStep (bs : List Batch) :
    ∀ a : ℚ × Nat × Nat,
      bs.foldl passStep a =
        (a.1 + (bs.map fun b => b.loss * (b.size : ℚ)).sum,
          a.2.1 + (bs.map Batch.correct).sum,
          a.2.2 + (bs.map Batch.size).sum) := by
  induction bs with
  | nil => intro a; simp
  | cons b bs ih =>
    intro a
    simp [List.foldl_cons, ih, passStep, add_assoc]

lemma foldPass_loss (bs : List Batch) :
    (foldPass bs).1 = (bs.map fun b => b.loss * (b.size : ℚ)).sum := by
  simp [foldPass, foldl_passStep]

lemma foldPass_corrects (bs : List Batch) :
    (foldPass bs).2.1 = (bs.map Batch.correct).sum := by
  simp [foldPass, foldl_passStep]

lemma foldPass_total (bs : List Batch) :
    (foldPass bs).2.2 = (bs.map Batch.size).sum := by
  simp [foldPass, foldl_passStep]

lemma foldl_testStep (bs : List TestBatch) :
    ∀ a : TestAgg,
      bs.foldl testStep a =
        { lossSum := a.lossSum + (bs.map fun b => b.loss * (b.size : ℚ)).sum
          corrects := a.corrects + (bs.map TestBatch.correct).sum
          total := a.total + (bs.map TestBatch.size).sum
          preds := a.preds ++ (bs.map TestBatch.preds).flatten
          labels := a.labels ++ (bs.map TestBatch.labels).flatten } := by
  induction bs with
  | nil => intro a; simp
  | cons b bs ih =>
    intro a
    simp [List.foldl_cons, ih, testStep, add_assoc]

lemma foldTestPass_corrects (bs : List TestBatch) :
    (foldTestPass bs).corrects = (bs.map TestBatch.correct).sum := by
  simp [foldTestPass, foldl_testStep]

lemma foldTestPass_total (bs : List TestBatch) :
    (foldTestPass bs).total = (bs.map TestBatch.size).sum := by
  simp [foldTestPass, foldl_testStep]

lemma foldTestPass_preds (bs : List TestBatch) :
    (foldTestPass bs).preds = (bs.map TestBatch.preds).flatten := by
  simp [foldTestPass, foldl_testStep]

lemma foldTestPass_labels (bs : List TestBatch) :
    (foldTestPass bs).labels = (bs.map TestBatch.labels).flatten := by
  simp [foldTestPass, foldl_testStep]

/-! Bounds on the accuracy percentage. -/

lemma accPct_nonneg (c t : Nat) : 0 ≤ accPct c t := by
  unfold accPct
  positivity

lemma accPct_le_100 (c t : Nat) (hct : c ≤ t) (ht : t ≠ 0) :
    accPct c t ≤ 100 := by
  unfold accPct
  have htpos : (0 : ℚ) < (t : ℚ) := by
    exact_mod_cast Nat.pos_of_ne_zero ht
  have h1 : (c : ℚ) / (t : ℚ) ≤ 1 := by
    rw [div_le_one htpos]
    exact_mod_cast hct
  calc (c : ℚ) / (t : ℚ) * 100 ≤ 1 * 100 := by
        exact mul_le_mul_of_nonneg_right h1 (by norm_num)
    _ = 100 := by norm_num

/-! Shape of `processEpoch` in each of its six cases. -/

lemma processEpoch_train_zero (e : Nat) (d : EpochData) (s : RunState)
    (h1 : (foldPass d.train).2.2 = 0) :
    processEpoch e d s = .err (startEpoch e d s) (.zeroDivision e .train) := by
  simp [processEpoch, reduceLossAcc, h1]

lemma processEpoch_val_zero (e : Nat) (d : EpochData) (s : RunState)
    (h1 : (foldPass d.train).2.2 ≠ 0) (h2 : (foldPass d.val).2.2 = 0) :
    processEpoch e d s =
      .err (recordTrain (trainLoss d) (trainAcc d) (startEpoch e d s))
        (.zeroDivision e .validation) := by
  simp [processEpoch, reduceLossAcc, h1, h2, valPass, trainLoss, trainAcc]

lemma processEpoch_test_empty (e : Nat) (d : EpochData) (s : RunState)
    (h1 : (foldPass d.train).2.2 ≠ 0) (h2 : (foldPass d.val).2.2 ≠ 0)
    (h3 : d.test = []) :
    processEpoch e d s =
      .err (setTestCollect d (recordTrain (trainLoss d) (trainAcc d) (startEpoch e d s)))
        (.attributeError e "double") := by
  simp [processEpoch, reduceLossAcc, h1, h2, h3, valPass, trainLoss, trainAcc]

lemma processEpoch_brk (e : Nat) (d : EpochData) (s : RunState)
    (h1 : (foldPass d.train).2.2 ≠ 0) (h2 : (foldPass d.val).2.2 ≠ 0)
    (h3 : d.test ≠ []) (h4 : 80 ≤ testAccOf d) :
    processEpoch e d s =
      .brk (setTestCollect d (recordTrain (trainLoss d) (trainAcc d) (startEpoch e d s))) := by
  simp [processEpoch, reduceLossAcc, h1, h2, h3, valPass, trainLoss, trainAcc,
    testAccOf] at h4 ⊢
  simp [h4]

lemma processEpoch_cont_chk (e : Nat) (d : EpochData) (s : RunState)
    (h1 : (foldPass d.train).2.2 ≠ 0) (h2 : (foldPass d.val).2.2 ≠ 0)
    (h3 : d.test ≠ []) (h4 : ¬ 80 ≤ testAccOf d)
    (h5 : e % 5 = 0) :
    processEpoch e d s =
      .cont (addCheckpoint e (trainLoss d)
        (setTestCollect d (recordTrain (trainLoss d) (trainAcc d) (startEpoch e d s)))) := by
  simp [testAccOf] at h4
  simp [processEpoch, reduceLossAcc, h1, h2, h3, h4, h5, valPass, trainLoss, trainAcc]

lemma processEpoch_cont_nochk (e : Nat) (d : EpochData) (s : RunState)
    (h1 : (foldPass d.train).2.2 ≠ 0) (h2 : (foldPass d.val).2.2 ≠ 0)
    (h3 : d.test ≠ []) (h4 : ¬ 80 ≤ testAccOf d)
    (h5 : e % 5 ≠ 0) :
    processEpoch e d s =
      .cont (setTestCollect d (recordTrain (trainLoss d) (trainAcc d) (startEpoch e d s))) := by
  simp [testAccOf] at h4
  simp [processEpoch, reduceLossAcc, h1, h2, h3, h4, h5, valPass, trainLoss, trainAcc]

/-! Components of the state after one epoch, in every case. -/

lemma processEpoch_components (e : Nat) (d : EpochData) (s : RunState) :
    (processEpoch e d s).state.lr = s.lr ∧
    (processEpoch e d s).state.sched = s.sched ∧
    (processEpoch e d s).state.lrTrace = s.lrTrace ++ [s.lr] ∧
    (processEpoch e d s).state.executed = s.executed ++ [e] ∧
    ((processEpoch e d s).state.writes = s.writes ∨
      (processEpoch e d s).state.writes =
        s.writes ++ [FileWrite.checkpoint e d.modelAfter d.optimAfter (trainLoss d)]) := by
  by_cases h1 : (foldPass d.train).2.2 = 0
  · rw [processEpoch_train_zero e d s h1]
    simp [EpochOutcome.state, startEpoch]
  · by_cases h2 : (foldPass d.val).2.2 = 0
    · rw [processEpoch_val_zero e d s h1 h2]
      simp [EpochOutcome.state, startEpoch, recordTrain]
    · by_cases h3 : d.test = []
      · rw [processEpoch_test_empty e d s h1 h2 h3]
        simp [EpochOutcome.state, startEpoch, recordTrain, setTestCollect]
      · by_cases h4 : 80 ≤ testAccOf d
        · rw [processEpoch_brk e d s h1 h2 h3 h4]
          simp [EpochOutcome.state, startEpoch, recordTrain, setTestCollect]
        · by_cases h5 : e % 5 = 0
          · rw [processEpoch_cont_chk e d s h1 h2 h3 h4 h5]
            simp [EpochOutcome.state, startEpoch, recordTrain, setTestCollect, addCheckpoint]
          · rw [processEpoch_cont_nochk e d s h1 h2 h3 h4 h5]
            simp [EpochOutcome.state, startEpoch, recordTrain, setTestCollect]

/-- An epoch that breaks or falls through leaves `all_preds` / `all_labels`
holding exactly this epoch's test collections. -/
lemma processEpoch_collect (e : Nat) (d : EpochData) (s : RunState)
    (h : (processEpoch e d s).isBrk = true ∨ (processEpoch e d s).isCont = true) :
    (processEpoch e d s).state.all_preds = (foldTestPass d.test).preds ∧
    (processEpoch e d s).state.all_labels = (foldTestPass d.test).labels := by
  by_cases h1 : (foldPass d.train).2.2 = 0
  · rw [processEpoch_train_zero e d s h1] at h
    simp [EpochOutcome.isBrk, EpochOutcome.isCont] at h
  · by_cases h2 : (foldPass d.val).2.2 = 0
    · rw [processEpoch_val_zero e d s h1 h2] at h
      simp [EpochOutcome.isBrk, EpochOutcome.isCont] at h
    · by_cases h3 : d.test = []
      · rw [processEpoch_test_empty e d s h1 h2 h3] at h
        simp [EpochOutcome.isBrk, EpochOutcome.isCont] at h
      · by_cases h4 : 80 ≤ testAccOf d
        · rw [processEpoch_brk e d s h1 h2 h3 h4]
          simp [EpochOutcome.state, setTestCollect]
        · by_cases h5 : e % 5 = 0
          · rw [processEpoch_cont_chk e d s h1 h2 h3 h4 h5]
            simp [EpochOutcome.state, setTestCollect, addCheckpoint]
          · rw [processEpoch_cont_nochk e d s h1 h2 h3 h4 h5]
            simp [EpochOutcome.state, setTestCollect]

/-- Every exception an epoch can raise is a `ZeroDivisionError` of the train
or validation reduction, or the test reduction's `AttributeError`. -/
lemma processEpoch_err_form (e : Nat) (d : EpochData) (s : RunState)
    (sx : RunState) (er : RunError) (h : processEpoch e d s = .err sx er) :
    (∃ p, er = .zeroDivision e p) ∨ er = .attributeError e "double" := by
  by_cases h1 : (foldPass d.train).2.2 = 0
  · rw [processEpoch_train_zero e d s h1] at h
    exact Or.inl ⟨.train, by injection h with _ h; exact h.symm⟩
  · by_cases h2 : (foldPass d.val).2.2 = 0
    · rw [processEpoch_val_zero e d s h1 h2] at h
      exact Or.inl ⟨.validation, by injection h with _ h; exact h.symm⟩
    · by_cases h3 : d.test = []
      · rw [processEpoch_test_empty e d s h1 h2 h3] at h
        exact Or.inr (by injection h with _ h; exact h.symm)
      · by_cases h4 : 80 ≤ testAccOf d
        · rw [processEpoch_brk e d s h1 h2 h3 h4] at h
          exact absurd h (by simp)
        · by_cases h5 : e % 5 = 0
          · rw [processEpoch_cont_chk e d s h1 h2 h3 h4 h5] at h
            exact absurd h (by simp)
          · rw [processEpoch_cont_nochk e d s h1 h2 h3 h4 h5] at h
            exact absurd h (by simp)

/-! Rewriting `runLoop` by the outcome of its first epoch. -/

lemma runLoop_nil (s : RunState) : runLoop [] s = (s, none) := rfl

lemma runLoop_cons_err (p : Nat × EpochData) (rest : List (Nat × EpochData))
    (s sx : RunState) (er : RunError) (h : processEpoch p.1 p.2 s = .err sx er) :
    runLoop (p :: rest) s = (sx, some er) := by
  simp [runLoop, h]

lemma runLoop_cons_brk (p : Nat × EpochData) (rest : List (Nat × EpochData))
    (s sx : RunState) (h : processEpoch p.1 p.2 s = .brk sx) :
    runLoop (p :: rest) s = (sx, none) := by
  simp [runLoop, h]

lemma runLoop_cons_cont (p : Nat × EpochData) (rest : List (Nat × EpochData))
    (s sx : RunState) (h : processEpoch p.1 p.2 s = .cont sx) :
    runLoop (p :: rest) s = runLoop rest sx := by
  simp [runLoop, h]

/-- A property preserved by every epoch body is preserved by the loop. -/
lemma runLoop_invariant (P : RunState → Prop)
    (hP : ∀ e d s, P s → P (processEpoch e d s).state) :
    ∀ (l : List (Nat × EpochData)) (s : RunState), P s → P (runLoop l s).1 := by
  intro l
  induction l with
  | nil => intro s hs; exact hs
  | cons p rest ih =>
    intro s hs
    have h := hP p.1 p.2 s hs
    cases hpe : processEpoch p.1 p.2 s with
    | err sx er =>
      rw [runLoop_cons_err p rest s sx er hpe]
      rw [hpe] at h; exact h
    | brk sx =>
      rw [runLoop_cons_brk p rest s sx hpe]
      rw [hpe] at h; exact h
    | cont sx =>
      rw [runLoop_cons_cont p rest s sx hpe]
      rw [hpe] at h
      exact ih sx h

/-- Every exception escaping the loop is a pass `ZeroDivisionError` or the
test reduction's `AttributeError`. -/
lemma runLoop_err_form :
    ∀ (l : List (Nat × EpochData)) (s : RunState) (er : RunError),
      (runLoop l s).2 = some er →
        (∃ ep p, er = .zeroDivision ep p) ∨ ∃ ep, er = .attributeError ep "double" := by
  intro l
  induction l with
  | nil => intro s er h; simp [runLoop_nil] at h
  | cons p rest ih =>
    intro s er h
    cases hpe : processEpoch p.1 p.2 s with
    | err sx e2 =>
      rw [runLoop_cons_err p rest s sx e2 hpe] at h
      simp at h
      rcases processEpoch_err_form p.1 p.2 s sx e2 hpe with ⟨q, hq⟩ | hq
      · exact Or.inl ⟨p.1, q, h ▸ hq⟩
      · exact Or.inr ⟨p.1, h ▸ hq⟩
    | brk sx =>
      rw [runLoop_cons_brk p rest s sx hpe] at h
      simp at h
    | cont sx =>
      rw [runLoop_cons_cont p rest s sx hpe] at h
      exact ih sx er h

/-- `train_model` either propagates a loop exception or finalizes. -/
lemma train_model_cases (m0 o0 : Nat) (data : Nat → EpochData) :
    (∃ er, (runLoop (epochList data) (initState m0 o0)).2 = some er ∧
      train_model m0 o0 data = ((runLoop (epochList data) (initState m0 o0)).1, some er)) ∨
    ((runLoop (epochList data) (initState m0 o0)).2 = none ∧
      train_model m0 o0 data = finalize (runLoop (epochList data) (initState m0 o0)).1) := by
  unfold train_model
  cases h : (runLoop (epochList data) (initState m0 o0)).2 with
  | none => right; simp [h]
  | some er => left; exact ⟨er, rfl, by simp [h]⟩

/-- Claim C1: the early stop triggers exactly when the test accuracy of the
epoch is at least 80.0.  When the epoch breaks, the test accuracy was ≥ 80,
the loop returns at once without running any further epoch, no file is
written during that epoch (the checkpoint step is skipped), and only this
epoch is added to the executed trace; when the epoch falls through, the test
accuracy was < 80 and the loop continues with the remaining epochs; and when
no pass is empty, the epoch breaks if and only if the test accuracy is ≥ 80. -/
theorem early_stop_exact (e : Nat) (d : EpochData) (s : RunState)
    (rest : List (Nat × EpochData)) :
    ((processEpoch e d s).isBrk = true →
        80 ≤ testAccOf d ∧
        runLoop ((e, d) :: rest) s = ((processEpoch e d s).state, none) ∧
        (processEpoch e d s).state.writes = s.writes ∧
        (processEpoch e d s).state.executed = s.executed ++ [e]) ∧
    ((processEpoch e d s).isCont = true →
        testAccOf d < 80 ∧
        runLoop ((e, d) :: rest) s = runLoop rest (processEpoch e d s).state) ∧
    ((foldPass d.train).2.2 ≠ 0 → (foldPass d.val).2.2 ≠ 0 →
      (foldTestPass d.test).total ≠ 0 →
      ((processEpoch e d s).isBrk = true ↔ 80 ≤ testAccOf d)) := by
  by_cases h1 : (foldPass d.train).2.2 = 0
  · rw [processEpoch_train_zero e d s h1]
    exact ⟨by simp [EpochOutcome.isBrk], by simp [EpochOutcome.isCont],
      fun h1x _ _ => absurd h1 h1x⟩
  · by_cases h2 : (foldPass d.val).2.2 = 0
    · rw [processEpoch_val_zero e d s h1 h2]
      exact ⟨by simp [EpochOutcome.isBrk], by simp [EpochOutcome.isCont],
        fun _ h2x _ => absurd h2 h2x⟩
    · by_cases h3 : d.test = []
      · rw [processEpoch_test_empty e d s h1 h2 h3]
        exact ⟨by simp [EpochOutcome.isBrk], by simp [EpochOutcome.isCont],
          fun _ _ h3x => absurd (by rw [h3]; rfl) h3x⟩
      · by_cases h4 : 80 ≤ testAccOf d
        · have hpe := processEpoch_brk e d s h1 h2 h3 h4
          rw [runLoop_cons_brk (e, d) rest s _ hpe, hpe]
          simp [EpochOutcome.isBrk, EpochOutcome.isCont, EpochOutcome.state,
            setTestCollect, recordTrain, startEpoch, h4]
        · by_cases h5 : e % 5 = 0
          · have hpe := processEpoch_cont_chk e d s h1 h2 h3 h4 h5
            rw [runLoop_cons_cont (e, d) rest s _ hpe, hpe]
            simp only [not_le] at h4
            simp [EpochOutcome.isBrk, EpochOutcome.isCont, EpochOutcome.state, h4,
              not_le.mpr h4]
          · have hpe := processEpoch_cont_nochk e d s h1 h2 h3 h4 h5
            rw [runLoop_cons_cont (e, d) rest s _ hpe, hpe]
            simp only [not_le] at h4
            simp [EpochOutcome.isBrk, EpochOutcome.isCont, EpochOutcome.state, h4,
              not_le.mpr h4]

/-- Comparing a bound against an accuracy percentage is comparing the scaled
integer counters. -/
lemma q_le_accPct_iff (q : ℚ) (c t : Nat) (ht : t ≠ 0) :
    q ≤ accPct c t ↔ q * (t : ℚ) ≤ (c : ℚ) * 100 := by
  have htpos : (0 : ℚ) < (t : ℚ) := by exact_mod_cast Nat.pos_of_ne_zero ht
  rw [accPct, div_mul_eq_mul_div, le_div_iff₀ htpos]

/-- `dHigh` reaches the early-stop threshold (accuracy 100%). -/
lemma acc_dHigh_ge : 80 ≤ testAccOf dHigh := by
  have h : testAccOf dHigh = accPct 2 2 := rfl
  rw [h, q_le_accPct_iff 80 2 2 (by decide)]
  norm_num

/-- `dLow` stays below the early-stop threshold (accuracy 50%). -/
lemma acc_dLow_lt : ¬ 80 ≤ testAccOf dLow := by
  have h : testAccOf dLow = accPct 1 2 := rfl
  rw [h, q_le_accPct_iff 80 1 2 (by decide)]
  norm_num

/-- Witness for C1 at concrete data: with `dHigh` (test accuracy 100%) the
first epoch breaks, its accuracy is ≥ 80, and the loop ends at once. -/
theorem early_stop_exact_witness :
    80 ≤ testAccOf dHigh ∧
    (runLoop [(1, dHigh)] (initState 0 0)).2 = none ∧
    (runLoop [(1, dHigh)] (initState 0 0)).1.writes = (initState 0 0).writes := by
  have hpe := processEpoch_brk 1 dHigh (initState 0 0) (by decide) (by decide)
    (by decide) acc_dHigh_ge
  have h := (early_stop_exact 1 dHigh (initState 0 0) []).1 (by rw [hpe]; rfl)
  exact ⟨h.1, by rw [h.2.1], by rw [h.2.1]; exact h.2.2.1⟩

/-- Every file the epoch loop writes is a periodic checkpoint file. -/
lemma runLoop_writes_checkpoints (l : List (Nat × EpochData)) (s : RunState)
    (hs : s.writes.all FileWrite.isCheckpoint = true) :
    (runLoop l s).1.writes.all FileWrite.isCheckpoint = true := by
  refine runLoop_invariant (fun s => s.writes.all FileWrite.isCheckpoint = true) ?_ l s hs
  intro e d s hw
  rcases (processEpoch_components e d s).2.2.2.2 with h | h
  · rw [h]; exact hw
  · rw [h, List.all_append, hw]
    rfl

/-- Claim C2 (as the code behaves): no run of `train_model` ever writes any of
the three plot image files, because the loss-plot section reads the undefined
name `val_losses` and the resulting `NameError` (or an earlier
`ZeroDivisionError`) terminates the run; every write performed is a checkpoint
file or the final model file, and the run never terminates normally. -/
theorem plots_never_written (m0 o0 : Nat) (data : Nat → EpochData) :
    (train_model m0 o0 data).1.writes.all (fun w => !w.isPlot) = true ∧
    (train_model m0 o0 data).2 ≠ none ∧
    FileWrite.lossPlot.path = "output/loss_vs_epochs.png" ∧
    FileWrite.accPlot.path = "output/accuracy_vs_epochs.png" ∧
    FileWrite.confusionPlot.path = "output/confusion_matrix.png" := by
  have hloop := runLoop_writes_checkpoints (epochList data) (initState m0 o0) (by rfl)
  have hnp : (runLoop (epochList data) (initState m0 o0)).1.writes.all
      (fun w => !w.isPlot) = true := by
    rw [List.all_eq_true] at hloop ⊢
    intro w hw
    have := hloop w hw
    cases w <;> simp_all [FileWrite.isCheckpoint, FileWrite.isPlot]
  rcases train_model_cases m0 o0 data with ⟨er, _, hm⟩ | ⟨_, hm⟩
  · rw [hm]
    exact ⟨hnp, by simp, rfl, rfl, rfl⟩
  · rw [hm]
    refine ⟨?_, by simp [finalize], rfl, rfl, rfl⟩
    simp only [finalize, List.all_append]
    rw [hnp]
    rfl

/-- Claim C3: the validation pass of an epoch computes an epoch loss and an
epoch accuracy but stores nothing: the run state it returns is exactly the
state it received (in particular `train_losses` and `train_accs` are
untouched), and because no validation history is ever recorded, the plotting
step's read of the validation history terminates every run that survives the
epoch loop with a `NameError` on `val_losses`. -/
theorem val_history_never_recorded (d : EpochData) (s : RunState)
    (m0 o0 : Nat) (data : Nat → EpochData) :
    (valPass d s).1 = s ∧
    (valPass d s).2 = reduceLossAcc (foldPass d.val) ∧
    ((train_model m0 o0 data).2 = some (RunError.nameError "val_losses") ∨
      (∃ ep p, (train_model m0 o0 data).2 = some (RunError.zeroDivision ep p)) ∨
      ∃ ep, (train_model m0 o0 data).2 = some (RunError.attributeError ep "double")) := by
  refine ⟨rfl, rfl, ?_⟩
  rcases train_model_cases m0 o0 data with ⟨er, her, hm⟩ | ⟨_, hm⟩
  · rw [hm]
    rcases runLoop_err_form (epochList data) (initState m0 o0) er her with ⟨ep, p, hp⟩ | ⟨ep, hp⟩
    · exact Or.inr (Or.inl ⟨ep, p, by rw [hp]⟩)
    · exact Or.inr (Or.inr ⟨ep, by rw [hp]⟩)
  · rw [hm]
    exact Or.inl rfl

/-- A non-empty pass reduces to its epoch loss and accuracy. -/
lemma reduceLossAcc_some (bs : List Batch) (h : (foldPass bs).2.2 ≠ 0) :
    reduceLossAcc (foldPass bs) =
      some ((foldPass bs).1 / ((foldPass bs).2.2 : ℚ),
        accPct (foldPass bs).2.1 (foldPass bs).2.2) := by
  simp [reduceLossAcc, h]

/-- Claim C4: a checkpoint file is written during an epoch exactly when the
epoch falls through (the early-stop condition was not met and no pass raised)
and the epoch index is a multiple of 5; the record written is exactly the
epoch index, the model parameters and optimizer state after this epoch's
train pass, and this epoch's train loss.  An epoch that breaks early or
raises writes nothing. -/
theorem checkpoint_every_5_no_stop (e : Nat) (d : EpochData) (s : RunState)
    (tl ta : ℚ) (hT : reduceLossAcc (foldPass d.train) = some (tl, ta)) :
    ((processEpoch e d s).isCont = true →
      (processEpoch e d s).state.writes = s.writes ++
        (if e % 5 = 0 then [FileWrite.checkpoint e d.modelAfter d.optimAfter tl] else [])) ∧
    ((processEpoch e d s).isCont = false →
      (processEpoch e d s).state.writes = s.writes) := by
  have h1 : (foldPass d.train).2.2 ≠ 0 := by
    intro h0
    rw [reduceLossAcc, if_pos h0] at hT
    exact Option.noConfusion hT
  have htl : tl = trainLoss d := by
    rw [reduceLossAcc_some d.train h1] at hT
    injection hT with h
    exact (congrArg Prod.fst h).symm
  subst htl
  by_cases h2 : (foldPass d.val).2.2 = 0
  · rw [processEpoch_val_zero e d s h1 h2]
    exact ⟨by simp [EpochOutcome.isCont], by
      simp [EpochOutcome.state, startEpoch, recordTrain]⟩
  · by_cases h3 : d.test = []
    · rw [processEpoch_test_empty e d s h1 h2 h3]
      exact ⟨by simp [EpochOutcome.isCont], by
        simp [EpochOutcome.state, startEpoch, recordTrain, setTestCollect]⟩
    · by_cases h4 : 80 ≤ testAccOf d
      · rw [processEpoch_brk e d s h1 h2 h3 h4]
        exact ⟨by simp [EpochOutcome.isCont], by
          simp [EpochOutcome.state, startEpoch, recordTrain, setTestCollect]⟩
      · by_cases h5 : e % 5 = 0
        · rw [processEpoch_cont_chk e d s h1 h2 h3 h4 h5]
          refine ⟨fun _ => ?_, by simp [EpochOutcome.isCont]⟩
          simp [EpochOutcome.state, startEpoch, recordTrain, setTestCollect,
            addCheckpoint, h5]
        · rw [processEpoch_cont_nochk e d s h1 h2 h3 h4 h5]
          refine ⟨fun _ => ?_, by simp [EpochOutcome.isCont]⟩
          simp [EpochOutcome.state, startEpoch, recordTrain, setTestCollect, h5]

/-- Witness for C4 at concrete data: at epoch 5 with `dLow` (no early stop)
exactly one checkpoint record is written, holding epoch 5, the post-pass
model and optimizer parameters, and the epoch's train loss. -/
theorem checkpoint_every_5_no_stop_witness :
    (processEpoch 5 dLow (initState 0 0)).state.writes =
      [FileWrite.checkpoint 5 dLow.modelAfter dLow.optimAfter (trainLoss dLow)] := by
  have hpe := processEpoch_cont_chk 5 dLow (initState 0 0) (by decide) (by decide)
    (by decide) acc_dLow_lt (by decide)
  have h := (checkpoint_every_5_no_stop 5 dLow (initState 0 0) (trainLoss dLow)
    (trainAcc dLow) (by rw [reduceLossAcc_some dLow.train (by decide)]; rfl)).1
    (by rw [hpe]; rfl)
  rw [h]
  simp [initState]

/-- Claim C5: the `StepLR` schedule object is constructed at setup but the
epoch loop never advances it, so it has no effect: at the end of any run the
schedule object is exactly as constructed (`step_size = 10`, `gamma = 0.1`,
zero steps taken), the optimizer's learning rate is still the constant
`0.0001`, and every executed epoch ran at learning rate `0.0001`. -/
theorem scheduler_never_stepped (m0 o0 : Nat) (data : Nat → EpochData) :
    (train_model m0 o0 data).1.sched = initSched ∧
    initSched = { step_size := 10, gamma := 1 / 10, last_epoch := 0 } ∧
    (train_model m0 o0 data).1.lr = 1 / 10000 ∧
    (train_model m0 o0 data).1.lrTrace =
      List.replicate (train_model m0 o0 data).1.executed.length ((1 : ℚ) / 10000) := by
  have hinv : ∀ (l : List (Nat × EpochData)) (s : RunState),
      (s.sched = initSched ∧ s.lr = 1 / 10000 ∧
        s.lrTrace = List.replicate s.executed.length ((1 : ℚ) / 10000)) →
      ((runLoop l s).1.sched = initSched ∧ (runLoop l s).1.lr = 1 / 10000 ∧
        (runLoop l s).1.lrTrace =
          List.replicate (runLoop l s).1.executed.length ((1 : ℚ) / 10000)) := by
    refine runLoop_invariant (fun s => s.sched = initSched ∧ s.lr = 1 / 10000 ∧
      s.lrTrace = List.replicate s.executed.length ((1 : ℚ) / 10000)) ?_
    intro e d s hs
    obtain ⟨hlr, hsc, htr, hex, _⟩ := processEpoch_components e d s
    refine ⟨by rw [hsc]; exact hs.1, by rw [hlr]; exact hs.2.1, ?_⟩
    rw [htr, hex, hs.2.2, hs.2.1, List.length_append, List.length_singleton,
      List.replicate_succ']
  have hloop := hinv (epochList data) (initState m0 o0) (by exact ⟨rfl, rfl, rfl⟩)
  rcases train_model_cases m0 o0 data with ⟨er, _, hm⟩ | ⟨_, hm⟩
  · rw [hm]
    exact ⟨hloop.1, rfl, hloop.2.1, hloop.2.2⟩
  · rw [hm]
    simp only [finalize]
    exact ⟨hloop.1, rfl, hloop.2.1, hloop.2.2⟩

/-- If each batch's correct count is at most its size, the accumulated correct
count of a pass is at most its accumulated sample count. -/
lemma foldPass_corrects_le_total (bs : List Batch)
    (hb : ∀ b ∈ bs, b.correct ≤ b.size) :
    (foldPass bs).2.1 ≤ (foldPass bs).2.2 := by
  rw [foldPass_corrects, foldPass_total]
  exact List.sum_le_sum hb

/-- The same bound for the test-pass accumulators. -/
lemma foldTestPass_corrects_le_total (bs : List TestBatch)
    (hb : ∀ b ∈ bs, b.correct ≤ b.size) :
    (foldTestPass bs).corrects ≤ (foldTestPass bs).total := by
  rw [foldTestPass_corrects, foldTestPass_total]
  exact List.sum_le_sum hb

/-- Claim C6: for every pass over batches whose correct counts are bounded by
their sizes and which sees at least one sample, the computed accuracy
percentage equals `corrects / total_samples * 100` and lies in `[0, 100]`;
this covers the train/validation accumulator loop (`foldPass`) and the test
accumulator loop (`foldTestPass`). -/
theorem accuracy_pct_in_range (bs : List Batch) (tbs : List TestBatch)
    (hb : ∀ b ∈ bs, b.correct ≤ b.size) (hn : (foldPass bs).2.2 ≠ 0)
    (htb : ∀ b ∈ tbs, b.correct ≤ b.size) (htn : (foldTestPass tbs).total ≠ 0) :
    (accPct (foldPass bs).2.1 (foldPass bs).2.2 =
        ((foldPass bs).2.1 : ℚ) / ((foldPass bs).2.2 : ℚ) * 100 ∧
      0 ≤ accPct (foldPass bs).2.1 (foldPass bs).2.2 ∧
      accPct (foldPass bs).2.1 (foldPass bs).2.2 ≤ 100) ∧
    (accPct (foldTestPass tbs).corrects (foldTestPass tbs).total =
        ((foldTestPass tbs).corrects : ℚ) / ((foldTestPass tbs).total : ℚ) * 100 ∧
      0 ≤ accPct (foldTestPass tbs).corrects (foldTestPass tbs).total ∧
      accPct (foldTestPass tbs).corrects (foldTestPass tbs).total ≤ 100) := by
  refine ⟨⟨rfl, accPct_nonneg _ _, ?_⟩, ⟨rfl, accPct_nonneg _ _, ?_⟩⟩
  · exact accPct_le_100 _ _ (foldPass_corrects_le_total bs hb) hn
  · exact accPct_le_100 _ _ (foldTestPass_corrects_le_total tbs htb) htn

/-- Witness for C6 at concrete batches: one train batch of 2 samples with 1
correct and one test batch of 2 samples with 1 correct. -/
theorem accuracy_pct_in_range_witness :
    (accPct (foldPass [bHalf]).2.1 (foldPass [bHalf]).2.2 =
        ((foldPass [bHalf]).2.1 : ℚ) / ((foldPass [bHalf]).2.2 : ℚ) * 100 ∧
      0 ≤ accPct (foldPass [bHalf]).2.1 (foldPass [bHalf]).2.2 ∧
      accPct (foldPass [bHalf]).2.1 (foldPass [bHalf]).2.2 ≤ 100) ∧
    (accPct (foldTestPass [tbLow]).corrects (foldTestPass [tbLow]).total =
        ((foldTestPass [tbLow]).corrects : ℚ) / ((foldTestPass [tbLow]).total : ℚ) * 100 ∧
      0 ≤ accPct (foldTestPass [tbLow]).corrects (foldTestPass [tbLow]).total ∧
      accPct (foldTestPass [tbLow]).corrects (foldTestPass [tbLow]).total ≤ 100) :=
  accuracy_pct_in_range [bHalf] [tbLow] (by decide) (by decide) (by decide) (by decide)

/-- Claim C7: after a pass, the accumulated `total_samples` equals the sum of
the sizes of the batches the pass iterated over; this holds for the
train/validation accumulator loop and for the test accumulator loop. -/
theorem total_samples_eq_sum_batch_sizes (bs : List Batch) (tbs : List TestBatch) :
    (foldPass bs).2.2 = (bs.map Batch.size).sum ∧
    (foldTestPass tbs).total = (tbs.map TestBatch.size).sum :=
  ⟨foldPass_total bs, foldTestPass_total tbs⟩

/-- The epoch range of the run, written out: epochs 1 through 13. -/
lemma epochList_eq (data : Nat → EpochData) :
    epochList data =
      [(1, data 1), (2, data 2), (3, data 3), (4, data 4), (5, data 5), (6, data 6),
        (7, data 7), (8, data 8), (9, data 9), (10, data 10), (11, data 11),
        (12, data 12), (13, data 13)] := rfl

/-- Claim C8: whenever the epoch loop ends without an uncaught exception —
by early stop or by exhausting the 13 epochs — `train_model` persists the
model parameters as they stand after the loop to the fixed final-model path,
so the final model file is written regardless of early stop. -/
theorem final_model_always_saved (m0 o0 : Nat) (data : Nat → EpochData)
    (h : (runLoop (epochList data) (initState m0 o0)).2 = none) :
    FileWrite.finalModel (runLoop (epochList data) (initState m0 o0)).1.modelState
        ∈ (train_model m0 o0 data).1.writes ∧
    ∀ m : Nat, (FileWrite.finalModel m).path = "checkpoints/final_model.pth" := by
  rcases train_model_cases m0 o0 data with ⟨er, her, _⟩ | ⟨_, hm⟩
  · rw [h] at her
    exact Option.noConfusion her
  · rw [hm]
    refine ⟨?_, fun m => rfl⟩
    simp [finalize]

/-- Witness for C8 at concrete data: with `dHigh` the loop stops early at
epoch 1 and the final model file is still written. -/
theorem final_model_always_saved_witness :
    FileWrite.finalModel
        (runLoop (epochList fun _ => dHigh) (initState 0 0)).1.modelState
      ∈ (train_model 0 0 fun _ => dHigh).1.writes := by
  have hpe := processEpoch_brk 1 dHigh (initState 0 0) (by decide) (by decide)
    (by decide) acc_dHigh_ge
  have hrl : (runLoop (epochList fun _ => dHigh) (initState 0 0)).2 = none := by
    rw [epochList_eq]
    rw [runLoop_cons_brk (1, dHigh) _ (initState 0 0) _ hpe]
  exact (final_model_always_saved 0 0 (fun _ => dHigh) hrl).1

/-- Counterexample to claim C9 as stated: at `dTestEmpty` the test pass
encounters zero samples (its dataloader yields no batches), yet the epoch's
uncaught exception is the `AttributeError` of line 114 — where
`test_running_corrects.double()` runs on the still-int accumulator before any
division — and is not a division-by-zero error. -/
theorem zero_samples_test_pass_counterexample :
    (foldTestPass dTestEmpty.test).total = 0 ∧
    (processEpoch 1 dTestEmpty (initState 0 0)).errOf =
      some (RunError.attributeError 1 "double") ∧
    Option.map RunError.isZeroDiv (processEpoch 1 dTestEmpty (initState 0 0)).errOf =
      some false := by
  have hpe := processEpoch_test_empty 1 dTestEmpty (initState 0 0) (by decide)
    (by decide) rfl
  rw [hpe]
  exact ⟨rfl, rfl, rfl⟩

/-- Claim C9 as amended: an epoch whose train pass saw zero samples raises a
`ZeroDivisionError` at the train metric reduction, and likewise for the
validation pass; a test pass that yields no batches instead raises an
`AttributeError` at the accuracy reduction (line 114 calls `.double()` on the
still-int `test_running_corrects`) before any division.  The script has no
error handling, so any exception escaping the epoch loop is `train_model`'s
result, terminating the run, and every file such a terminated run has written
is a periodic checkpoint of an earlier epoch — the final model file and the
plot files of the later steps are never written. -/
theorem zero_samples_uncaught_error (e : Nat) (d : EpochData) (s : RunState)
    (m0 o0 : Nat) (data : Nat → EpochData) :
    ((foldPass d.train).2.2 = 0 →
      processEpoch e d s = .err (startEpoch e d s) (.zeroDivision e .train)) ∧
    ((foldPass d.train).2.2 ≠ 0 → (foldPass d.val).2.2 = 0 →
      (processEpoch e d s).errOf = some (.zeroDivision e .validation)) ∧
    ((foldPass d.train).2.2 ≠ 0 → (foldPass d.val).2.2 ≠ 0 → d.test = [] →
      (processEpoch e d s).errOf = some (.attributeError e "double")) ∧
    (∀ er, (runLoop (epochList data) (initState m0 o0)).2 = some er →
      (train_model m0 o0 data).2 = some er ∧
      (train_model m0 o0 data).1.writes.all FileWrite.isCheckpoint = true) := by
  refine ⟨processEpoch_train_zero e d s, ?_, ?_, ?_⟩
  · intro h1 h2
    rw [processEpoch_val_zero e d s h1 h2]
    rfl
  · intro h1 h2 h3
    rw [processEpoch_test_empty e d s h1 h2 h3]
    rfl
  · intro er hrl
    have hloop := runLoop_writes_checkpoints (epochList data) (initState m0 o0) (by rfl)
    rcases train_model_cases m0 o0 data with ⟨er2, her2, hm⟩ | ⟨hnone, _⟩
    · rw [her2] at hrl
      injection hrl with hrl
      rw [hm, hrl]
      exact ⟨rfl, hloop⟩
    · rw [hnone] at hrl
      exact Option.noConfusion hrl

/-- Witness for C9 (amended) at concrete data: with every dataloader empty,
epoch 1 raises the train-pass `ZeroDivisionError` and the run terminates with
it, having written nothing but (vacuously) checkpoints — in fact nothing at
all; with only the test dataloader empty, epoch 1 raises the
`AttributeError`. -/
theorem zero_samples_uncaught_error_witness :
    processEpoch 1 dEmpty (initState 0 0) =
      .err (startEpoch 1 dEmpty (initState 0 0)) (.zeroDivision 1 .train) ∧
    (processEpoch 1 dTestEmpty (initState 0 0)).errOf =
      some (RunError.attributeError 1 "double") ∧
    (train_model 0 0 fun _ => dEmpty).2 = some (RunError.zeroDivision 1 .train) ∧
    (train_model 0 0 fun _ => dEmpty).1.writes.all FileWrite.isCheckpoint = true := by
  have hpe := (zero_samples_uncaught_error 1 dEmpty (initState 0 0) 0 0
    (fun _ => dEmpty)).1 (by decide)
  have hte := (zero_samples_uncaught_error 1 dTestEmpty (initState 0 0) 0 0
    (fun _ => dEmpty)).2.2.1 (by decide) (by decide) rfl
  have hrl : (runLoop (epochList fun _ => dEmpty) (initState 0 0)).2 =
      some (RunError.zeroDivision 1 .train) := by
    rw [epochList_eq, runLoop_cons_err (1, dEmpty) _ (initState 0 0) _ _ hpe]
  have h4 := (zero_samples_uncaught_error 1 dEmpty (initState 0 0) 0 0
    (fun _ => dEmpty)).2.2.2 _ hrl
  exact ⟨hpe, hte, h4.1, h4.2⟩

/-- When every test batch's prediction list has the batch's size, the
collected predictions number exactly `test_total_samples`. -/
lemma foldTestPass_preds_length (tbs : List TestBatch)
    (h : ∀ b ∈ tbs, b.preds.length = b.size) :
    (foldTestPass tbs).preds.length = (foldTestPass tbs).total := by
  rw [foldTestPass_preds, foldTestPass_total, List.length_flatten, List.map_map]
  exact congrArg List.sum (List.map_congr_left fun b hb => h b hb)

/-- The label analogue of `foldTestPass_preds_length`. -/
lemma foldTestPass_labels_length (tbs : List TestBatch)
    (h : ∀ b ∈ tbs, b.labels.length = b.size) :
    (foldTestPass tbs).labels.length = (foldTestPass tbs).total := by
  rw [foldTestPass_labels, foldTestPass_total, List.length_flatten, List.map_map]
  exact congrArg List.sum (List.map_congr_left fun b hb => h b hb)

/-- A loop over at least one epoch that ends without an exception leaves
`all_preds` / `all_labels` holding exactly the test collections of the last
epoch it processed. -/
lemma runLoop_last_collect :
    ∀ (l : List (Nat × EpochData)) (s : RunState), l ≠ [] → (runLoop l s).2 = none →
      ∃ p, p ∈ l ∧ (runLoop l s).1.executed.getLast? = some p.1 ∧
        (runLoop l s).1.all_preds = (foldTestPass p.2.test).preds ∧
        (runLoop l s).1.all_labels = (foldTestPass p.2.test).labels := by
  intro l
  induction l with
  | nil => intro s h; exact absurd rfl h
  | cons p rest ih =>
    intro s _ hnone
    cases hpe : processEpoch p.1 p.2 s with
    | err sx er =>
      rw [runLoop_cons_err p rest s sx er hpe] at hnone
      simp at hnone
    | brk sx =>
      rw [runLoop_cons_brk p rest s sx hpe] at hnone ⊢
      have hc := processEpoch_collect p.1 p.2 s (Or.inl (by rw [hpe]; rfl))
      have hex := (processEpoch_components p.1 p.2 s).2.2.2.1
      rw [hpe] at hc hex
      simp only [EpochOutcome.state] at hc hex
      exact ⟨p, List.mem_cons_self p rest, by simp [hex], hc.1, hc.2⟩
    | cont sx =>
      rw [runLoop_cons_cont p rest s sx hpe] at hnone ⊢
      by_cases hrest : rest = []
      · subst hrest
        rw [runLoop_nil] at hnone ⊢
        have hc := processEpoch_collect p.1 p.2 s (Or.inr (by rw [hpe]; rfl))
        have hex := (processEpoch_components p.1 p.2 s).2.2.2.1
        rw [hpe] at hc hex
        simp only [EpochOutcome.state] at hc hex
        exact ⟨p, List.mem_cons_self p [], by simp [hex], hc.1, hc.2⟩
      · obtain ⟨q, hq, h1, h2, h3⟩ := ih sx hrest hnone
        exact ⟨q, List.mem_cons_of_mem p hq, h1, h2, h3⟩

/-- Each pair of the epoch range is an epoch index with that epoch's data. -/
lemma epochList_mem (data : Nat → EpochData) (p : Nat × EpochData)
    (hp : p ∈ epochList data) : p.2 = data p.1 := by
  obtain ⟨i, _, hi⟩ := List.mem_map.1 hp
  rw [← hi]

/-- Claim C10: `all_preds` / `all_labels` are reset at the start of every
epoch's test pass, so when the epoch loop ends normally (and the run then
stops at the plotting `NameError`), they hold exactly the predictions and
true labels of the last executed epoch's test pass — not an accumulation over
the epochs — and when each test batch's collected lists have the batch's
size, their common length is that epoch's `test_total_samples`. -/
theorem confusion_data_from_last_epoch (m0 o0 : Nat) (data : Nat → EpochData)
    (h : (train_model m0 o0 data).2 = some (RunError.nameError "val_losses")) :
    ∃ e, (train_model m0 o0 data).1.executed ≠ [] ∧
      (train_model m0 o0 data).1.executed.getLast? = some e ∧
      (train_model m0 o0 data).1.all_preds = testPreds (data e) ∧
      (train_model m0 o0 data).1.all_labels = testLabels (data e) ∧
      ((∀ b ∈ (data e).test, b.preds.length = b.size ∧ b.labels.length = b.size) →
        (train_model m0 o0 data).1.all_preds.length =
          (foldTestPass (data e).test).total ∧
        (train_model m0 o0 data).1.all_labels.length =
          (foldTestPass (data e).test).total) := by
  rcases train_model_cases m0 o0 data with ⟨er, her, hm⟩ | ⟨hnone, hm⟩
  · rw [hm] at h
    rcases runLoop_err_form (epochList data) (initState m0 o0) er her with
      ⟨ep, p, hp⟩ | ⟨ep, hp⟩ <;> simp [hp] at h
  · obtain ⟨p, hp, hlast, hpreds, hlabels⟩ :=
      runLoop_last_collect (epochList data) (initState m0 o0)
        (by rw [epochList_eq]; exact List.cons_ne_nil _ _) hnone
    have hdata := epochList_mem data p hp
    refine ⟨p.1, ?_, ?_, ?_, ?_, ?_⟩
    · intro hemp
      rw [hm] at hemp
      simp only [finalize] at hemp
      rw [hemp] at hlast
      simp at hlast
    · rw [hm]
      simpa only [finalize] using hlast
    · rw [hm]
      simp only [finalize]
      rw [hpreds, hdata, testPreds, foldTestPass_preds]
    · rw [hm]
      simp only [finalize]
      rw [hlabels, hdata, testLabels, foldTestPass_labels]
    · intro hb
      rw [hm]
      simp only [finalize]
      rw [hpreds, hlabels, hdata]
      exact ⟨foldTestPass_preds_length _ fun b h2 => (hb b h2).1,
        foldTestPass_labels_length _ fun b h2 => (hb b h2).2⟩

/-- Witness for C10 at concrete data: with `dHigh` the loop breaks at epoch 1
and the collections hold exactly epoch 1's test predictions and labels. -/
theorem confusion_data_from_last_epoch_witness :
    ∃ e, (train_model 0 0 fun _ => dHigh).1.executed ≠ [] ∧
      (train_model 0 0 fun _ => dHigh).1.executed.getLast? = some e ∧
      (train_model 0 0 fun _ => dHigh).1.all_preds = testPreds dHigh ∧
      (train_model 0 0 fun _ => dHigh).1.all_labels = testLabels dHigh ∧
      ((∀ b ∈ dHigh.test, b.preds.length = b.size ∧ b.labels.length = b.size) →
        (train_model 0 0 fun _ => dHigh).1.all_preds.length =
          (foldTestPass dHigh.test).total ∧
        (train_model 0 0 fun _ => dHigh).1.all_labels.length =
          (foldTestPass dHigh.test).total) := by
  have hpe := processEpoch_brk 1 dHigh (initState 0 0) (by decide) (by decide)
    (by decide) acc_dHigh_ge
  have h2 : (train_model 0 0 fun _ => dHigh).2 =
      some (RunError.nameError "val_losses") := by
    simp only [train_model]
    rw [epochList_eq, runLoop_cons_brk (1, dHigh) _ (initState 0 0) _ hpe]
    simp [finalize]
  exact confusion_data_from_last_epoch 0 0 (fun _ => dHigh) h2
